import Mathlib

/-!
Verification development for the ruuvitag-listener measurement pipeline
(src/main.rs and src/ruuvi.rs).

Shallow embedding conventions:
- Rust `BTreeMap<String, V>` is modelled by `SMap V`, an association list
  whose `insert` replaces any previous binding of the key (as BTreeMap
  insert does) and whose `find?` returns the binding of the key, if any.
  No claim depends on the iteration order of the map, only on lookups.
- Rust floating-point arithmetic (`f64`, `f32`) is modelled over `ℚ`:
  every scale used by the program is a power of ten and every claim is
  about which scaling is applied, not about rounding, so exact rational
  arithmetic is the faithful level of abstraction.
- Machine integers (`i32`, `u32`, `i16`, `i8`, `u8`) are modelled as `ℤ`
  or `ℕ`; none of the embedded operations can overflow their Rust types.
- The external crate `ruuvi_sensor_protocol` (out of scope of the repo)
  supplies `SensorValues` and its accessor methods; they are modelled as
  an abstract record whose fields are the accessors' results. The two
  accessors that take an argument in the source (`dew_point_as_celsius`,
  `absolute_humidity_as_grams_per_cubic_meter`) are function-valued
  fields.
- Side effects (println diagnostics, process exit, the HTTP sink) are
  modelled by explicit return values, noted at each definition.
-/

/-- Association-list model of Rust `BTreeMap<String, V>`: `insert`
replaces any previous binding of the same key, `find?` looks a key up. -/
structure SMap (V : Type) where
  entries : List (String × V)
deriving DecidableEq

namespace SMap

variable {V : Type}

/-- The empty map (`BTreeMap::new()`). -/
def empty : SMap V := ⟨[]⟩

/-- Lookup in an association list: first binding of the key wins. -/
def lookupList : List (String × V) → String → Option V
  | [], _ => none
  | (k', v) :: rest, k => if k = k' then some v else lookupList rest k

/-- Map lookup (`BTreeMap::get`). -/
def find? (m : SMap V) (k : String) : Option V :=
  lookupList m.entries k

/-- Map insertion (`BTreeMap::insert`): the new binding replaces any
previous binding of the same key. -/
def insert (m : SMap V) (k : String) (v : V) : SMap V :=
  ⟨(k, v) :: m.entries.filter (fun p => p.1 != k)⟩

/-- Key membership test (`BTreeMap::contains_key`). -/
def containsKey (m : SMap V) (k : String) : Bool :=
  (m.find? k).isSome

theorem lookupList_filter_ne (l : List (String × V)) (key k : String)
    (h : k ≠ key) :
    lookupList (l.filter (fun p => p.1 != key)) k = lookupList l k := by
  induction l with
  | nil => rfl
  | cons p rest ih =>
    rcases p with ⟨k', v⟩
    rw [List.filter_cons]
    by_cases hp : k' = key
    · rw [if_neg (by simp [hp])]
      rw [ih]
      show _ = lookupList ((k', v) :: rest) k
      rw [lookupList, if_neg (by rw [hp]; exact h)]
    · rw [if_pos (by simp [hp])]
      show lookupList ((k', v) :: _) k = lookupList ((k', v) :: rest) k
      rw [lookupList, lookupList]
      by_cases hk : k = k'
      · rw [if_pos hk, if_pos hk]
      · rw [if_neg hk, if_neg hk, ih]

@[simp] theorem find?_empty (k : String) : (empty : SMap V).find? k = none := rfl

@[simp] theorem find?_insert (m : SMap V) (key k : String) (v : V) :
    (m.insert key v).find? k = if k = key then some v else m.find? k := by
  by_cases h : k = key
  · simp [insert, find?, lookupList, h]
  · simp only [insert, find?, lookupList, if_neg h]
    exact lookupList_filter_ne m.entries key k h

@[simp] theorem containsKey_empty (k : String) :
    (empty : SMap V).containsKey k = false := rfl

@[simp] theorem containsKey_insert (m : SMap V) (key k : String) (v : V) :
    (m.insert key v).containsKey k =
      if k = key then true else m.containsKey k := by
  by_cases h : k = key <;> simp [containsKey, h]

@[simp] theorem find?_ite (c : Prop) [Decidable c] (a b : SMap V) (k : String) :
    (if c then a else b).find? k = if c then a.find? k else b.find? k := by
  split <;> rfl

@[simp] theorem containsKey_ite (c : Prop) [Decidable c] (a b : SMap V)
    (k : String) :
    (if c then a else b).containsKey k =
      if c then a.containsKey k else b.containsKey k := by
  split <;> rfl

end SMap

/-- Decode-error taxonomy of the external `ruuvi_sensor_protocol` crate
(`ParseError`), modelled at the level the program observes it: the pipeline
constructs `EmptyValue` and `UnknownManufacturerId` itself and treats every
other variant opaquely. -/
inductive ParseError where
  | EmptyValue : ParseError
  | UnknownManufacturerId (id : ℕ) : ParseError
  | UnsupportedFormatVersion (version : ℕ) : ParseError
  | InvalidValueLength (len : ℕ) : ParseError
deriving DecidableEq

/-- Decoded sensor readings, the interface of the external crate's
`SensorValues` (src/ruuvi.rs line 13): one field per accessor method the
program calls, each independently present-or-absent. The two accessors
that take an argument in the source (`dew_point_as_celsius`, which is
given a humidity value, and `absolute_humidity_as_grams_per_cubic_meter`,
which is given a temperature value) are modelled as function-valued
fields. -/
structure SensorValues where
  temperature_as_millicelsius : Option ℤ
  humidity_as_ppm : Option ℕ
  pressure_as_pascals : Option ℕ
  battery_potential_as_millivolts : Option ℕ
  tx_power_as_dbm : Option ℤ
  movement_counter : Option ℕ
  measurement_sequence_number : Option ℕ
  pm25_as_10micrograms_per_cubicmeter : Option ℚ
  co2_as_ppm : Option ℚ
  get_dataformat : Option ℕ
  get_air_density_kg_per_m3 : Option ℚ
  saturation_vapor_pressure_as_hpa : Option ℚ
  acceleration_vector_as_milli_g : Option (ℤ × ℤ × ℤ)
  dew_point_as_celsius : ℚ → Option ℚ
  absolute_humidity_as_grams_per_cubic_meter : ℚ → Option ℚ

/-- Measurement from a RuuviTag sensor (src/ruuvi.rs lines 8-14).
The `BDAddr` device address is modelled as its display string
(colon-separated uppercase hex), which is the only form the program
uses (`measurement.address.to_string()`). -/
structure Measurement where
  address : String
  tx_power : Option ℤ
  rssi : Option ℤ
  sensor_values : SensorValues

/-- Modelled from the spec: the field-value type of the influxdb module
(`influxdb::FieldValue`, declared in src/main.rs line 18 but whose
defining file is not under src/): a field value is either a float or an
integer, per section 3's DataPoint ("field set (mapping from field name
to a numeric value)") and the float/integer split visible at the
`to_float!` and `to_integer!` construction sites (src/main.rs lines
42-61). -/
inductive FieldValue where
  | FloatValue (value : ℚ) : FieldValue
  | IntegerValue (value : ℤ) : FieldValue
deriving DecidableEq

/-- Modelled from the spec: the data-point record of the influxdb module
(`influxdb::DataPoint`, declared in src/main.rs line 18 but whose
defining file is not under src/): section 3 defines DataPoint as
{measurement-series name, tag set, field set, capture timestamp}; the
field names and the optional timestamp are visible at the construction
site (src/main.rs lines 212-217). `SystemTime` is modelled as `ℕ`. -/
structure DataPoint where
  measurement : String
  tag_set : SMap String
  field_set : SMap FieldValue
  timestamp : Option ℕ

/-- Command-line alias pair (src/main.rs lines 220-224). -/
structure Alias where
  address : String
  name : String
deriving DecidableEq

/-- Parsed command-line options (src/main.rs lines 252-272), restricted
to the fields the embedded pipeline reads. The source's field `alias`
is renamed `alias_list` because `alias` is a reserved word in Lean. -/
structure Options where
  influxdb_measurement : String
  alias_list : List Alias
  verbose : Bool
  keep_mac_colons : Bool
  data_format_versions : List ℕ

/-- Parse one `--alias` argument (src/main.rs lines 226-238): split at
the first '=' into address and name; error when no '=' occurs. The
source indexes by bytes; since '=' is a one-byte character the split
coincides with the character-level split modelled here. -/
def parse_alias (src : String) : Except String Alias :=
  match (src.toList).findIdx? (fun c => c = '=') with
  | some i =>
      Except.ok
        { address := String.mk ((src.toList).take i)
          name := String.mk (((src.toList).drop i).drop 1) }
  | none => Except.error "invalid alias"

/-- Build the alias table from the parsed `--alias` options
(src/main.rs lines 240-246): later entries replace earlier ones. -/
def alias_map (aliases : List Alias) : SMap String :=
  aliases.foldl (fun map a => map.insert a.address a.name) SMap.empty

/-- Address normalization performed at the start of `tag_set`
(src/main.rs lines 30-33): unless `keep_mac_colons` is set, every ':'
character is removed from the address string (`address.retain(|c| c != ':')`). -/
def normalized_address (options : Options) (address : String) : String :=
  if !options.keep_mac_colons then
    String.mk ((address.toList).filter (fun c => c != ':'))
  else address

/-- Tag-set assembly (src/main.rs lines 24-40): `mac` is the (optionally
colon-stripped) device address, `name` is the alias table's entry for
that same string, falling back to the address itself
(`aliases.get(&address).unwrap_or(&address)`). -/
def tag_set (aliases : SMap String) (measurement : Measurement)
    (options : Options) : SMap String :=
  let address := normalized_address options measurement.address
  (SMap.empty.insert "mac" address).insert "name"
    ((aliases.find? address).getD address)

/-- The `add_value_float!` macro (src/main.rs lines 48-54): when the
optional value is present, insert `FloatValue(f64::from(value) / scale)`
under the given field name; otherwise leave the map unchanged. -/
def add_value_float (fields : SMap FieldValue) (value : Option ℚ)
    (field : String) (scale : ℚ) : SMap FieldValue :=
  match value with
  | some v => fields.insert field (FieldValue.FloatValue (v / scale))
  | none => fields

/-- The `add_value_integer!` macro (src/main.rs lines 63-69): when the
optional value is present, insert `IntegerValue(i64::from(value))` under
the given field name; otherwise leave the map unchanged. -/
def add_value_integer (fields : SMap FieldValue) (value : Option ℤ)
    (field : String) : SMap FieldValue :=
  match value with
  | some v => fields.insert field (FieldValue.IntegerValue v)
  | none => fields

/-- The acceleration block of `field_set` (src/main.rs lines 188-201):
when the full acceleration vector is present, insert the three axis
fields, each scaled by 1/1000. -/
def add_acceleration_vector (fields : SMap FieldValue)
    (acceleration : Option (ℤ × ℤ × ℤ)) : SMap FieldValue :=
  match acceleration with
  | some a =>
      ((fields.insert "accelerationX" (FieldValue.FloatValue ((a.1 : ℚ) / 1000))).insert
          "accelerationY" (FieldValue.FloatValue ((a.2.1 : ℚ) / 1000))).insert
        "accelerationZ" (FieldValue.FloatValue ((a.2.2 : ℚ) / 1000))
  | none => fields

/-- The diagnostic condition of the txPower fallback block (src/main.rs
lines 130-133): `println!("No tx power found for mac ...")` is executed
exactly when the readings' transmit power and the advertisement-layer
transmit power are both absent. The side effect is modelled by this
Boolean. -/
def tx_power_diagnostic (measurement : Measurement) : Bool :=
  measurement.sensor_values.tx_power_as_dbm.isNone &&
    measurement.tx_power.isNone

/-- Field-set assembly (src/main.rs lines 73-204), one insertion per
source statement, in source order. Numeric coercions stand for the
source's `f64::from` / `as f32` / `i64::from` conversions; the two
sentinel substitutions (999_999_999) for the dew-point and
absolute-humidity computations are carried over literally. The
`println!` inside the txPower fallback is modelled separately by
`tx_power_diagnostic`. -/
def field_set (measurement : Measurement) : SMap FieldValue :=
  let fields : SMap FieldValue := SMap.empty
  let fields := add_value_float fields
    (measurement.sensor_values.temperature_as_millicelsius.map (fun v => (v : ℚ)))
    "temperature" 1000
  let fields := add_value_float fields
    (measurement.sensor_values.dew_point_as_celsius
      (((measurement.sensor_values.humidity_as_ppm.getD 999999999 : ℕ) : ℚ) / 10000))
    "dewPoint" 1
  let fields := add_value_float fields
    (measurement.sensor_values.humidity_as_ppm.map (fun v => (v : ℚ)))
    "humidity" 10000
  let fields := add_value_float fields
    (measurement.sensor_values.absolute_humidity_as_grams_per_cubic_meter
      (((measurement.sensor_values.temperature_as_millicelsius.getD 999999999 : ℤ) : ℚ) / 1000))
    "absoluteHumidity" 1
  let fields := add_value_float fields
    (measurement.sensor_values.pressure_as_pascals.map (fun v => (v : ℚ)))
    "pressure" 1000
  let fields := add_value_float fields
    (measurement.sensor_values.battery_potential_as_millivolts.map (fun v => (v : ℚ)))
    "batteryVoltage" 1000
  let fields := add_value_integer fields
    measurement.sensor_values.tx_power_as_dbm "txPower"
  let fields :=
    if measurement.sensor_values.tx_power_as_dbm.isNone then
      add_value_integer fields measurement.tx_power "txPower"
    else fields
  let fields := add_value_integer fields
    (measurement.sensor_values.movement_counter.map (fun v => (v : ℤ)))
    "movementCounter"
  let fields := add_value_integer fields
    (measurement.sensor_values.measurement_sequence_number.map (fun v => (v : ℤ)))
    "measurementSequenceNumber"
  let fields := add_value_float fields
    measurement.sensor_values.pm25_as_10micrograms_per_cubicmeter
    "pm25" 1
  let fields := add_value_float fields
    measurement.sensor_values.co2_as_ppm
    "co2" 1
  let fields := add_value_integer fields
    (measurement.sensor_values.get_dataformat.map (fun v => (v : ℤ)))
    "dataFormat"
  let fields := add_value_integer fields measurement.rssi "rssi"
  let fields := add_value_float fields
    measurement.sensor_values.get_air_density_kg_per_m3
    "airDensity" 1
  let fields := add_value_float fields
    measurement.sensor_values.saturation_vapor_pressure_as_hpa
    "equilibriumVaporPressure" (1 / 100)
  add_acceleration_vector fields
    measurement.sensor_values.acceleration_vector_as_milli_g

/-- DataPoint construction (src/main.rs lines 206-218). The call to
`SystemTime::now()` is modelled by the explicit `now` parameter: the
timestamp is whatever the clock reads at construction time. -/
def to_data_point (aliases : SMap String) (name : String)
    (measurement : Measurement) (options : Options) (now : ℕ) : DataPoint :=
  { measurement := name
    tag_set := tag_set aliases measurement options
    field_set := field_set measurement
    timestamp := some now }

/-- Payload Decoder Gateway (src/ruuvi.rs lines 38-44): buffers of length
at most 2 are rejected with `ParseError::EmptyValue`; longer buffers are
handed to `SensorValues::from_manufacturer_specific_data`, a function of
the external crate modelled here as the `decode` parameter, and its
result is returned unchanged. -/
def from_manufacturer_data (decode : List ℕ → Except ParseError SensorValues)
    (data : List ℕ) : Except ParseError SensorValues :=
  if data.length > 2 then decode data else Except.error ParseError.EmptyValue

/-- Dispatch decision and DataPoint construction of `print_result_async`
(src/main.rs lines 274-305). The Rust condition is
`options.data_format_versions.contains(&...get_dataformat().unwrap()) ||
options.data_format_versions.is_empty()`: the `unwrap` of the optional
format marker is evaluated before either disjunct is settled, so a
missing marker panics regardless of the allowlist; this is modelled by
the outer `Option` (`none` = panic). The inner `Option` is the dispatch
outcome: `some dp` means the DataPoint was built and submitted (stdout
write and HTTP sink), `none` means the measurement was discarded by the
format-version filter. -/
def print_result_async (aliases : SMap String) (name : String)
    (measurement : Measurement) (options : Options) (now : ℕ) :
    Option (Option DataPoint) :=
  match measurement.sensor_values.get_dataformat with
  | none => none
  | some version =>
      if options.data_format_versions.contains version ||
          options.data_format_versions.isEmpty then
        some (some (to_data_point aliases name measurement options now))
      else
        some none

/-- Rendering of a decode error for the diagnostic stream, the model of
the external crate's `Display` instance used by `eprintln!("{}", error)`
(src/main.rs line 322). -/
def parse_error_message : ParseError → String
  | ParseError.EmptyValue => "empty value"
  | ParseError.UnknownManufacturerId id => "unknown manufacturer id " ++ toString id
  | ParseError.UnsupportedFormatVersion v => "unsupported format version " ++ toString v
  | ParseError.InvalidValueLength n => "invalid value length " ++ toString n

/-- The per-event callback installed by `listen` (src/main.rs lines
310-325): an `Ok` measurement is handed to a spawned dispatch task; an
`Err` is written to the diagnostic stream exactly when `verbose` is set.
The result is (diagnostic lines written, measurements handed to spawned
dispatch tasks). -/
def handle_event (verbose : Bool) :
    Except ParseError Measurement → List String × List Measurement
  | Except.ok measurement => ([], [measurement])
  | Except.error e => (if verbose then [parse_error_message e] else [], [])

/-- The event loop of `on_measurement` (src/ruuvi.rs lines 105-109)
composed with the callback installed by `listen` (src/main.rs lines
307-326): every delivered decode result is handed to `handle_event` in
order, and the loop keeps consuming the rest of the stream whatever
each result was. The stream is modelled as the list of decode results
delivered to the callback. Named `listen_loop` because the source name
`listen` collides with a Mathlib declaration. -/
def listen_loop (verbose : Bool) :
    List (Except ParseError Measurement) → List String × List Measurement
  | [] => ([], [])
  | result :: rest =>
      let step := handle_event verbose result
      let further := listen_loop verbose rest
      (step.1 ++ further.1, step.2 ++ further.2)

@[simp] theorem find?_add_value_float (fields : SMap FieldValue)
    (value : Option ℚ) (field k : String) (scale : ℚ) :
    (add_value_float fields value field scale).find? k =
      if k = field then
        (match value with
         | some v => some (FieldValue.FloatValue (v / scale))
         | none => fields.find? k)
      else fields.find? k := by
  cases value with
  | none => simp [add_value_float]
  | some v => simp [add_value_float]

@[simp] theorem find?_add_value_integer (fields : SMap FieldValue)
    (value : Option ℤ) (field k : String) :
    (add_value_integer fields value field).find? k =
      if k = field then
        (match value with
         | some v => some (FieldValue.IntegerValue v)
         | none => fields.find? k)
      else fields.find? k := by
  cases value with
  | none => simp [add_value_integer]
  | some v => simp [add_value_integer]

@[simp] theorem containsKey_add_value_float (fields : SMap FieldValue)
    (value : Option ℚ) (field k : String) (scale : ℚ) :
    (add_value_float fields value field scale).containsKey k =
      if k = field then (value.isSome || fields.containsKey k)
      else fields.containsKey k := by
  cases value with
  | none => simp [add_value_float]
  | some v => simp [add_value_float]

@[simp] theorem containsKey_add_value_integer (fields : SMap FieldValue)
    (value : Option ℤ) (field k : String) :
    (add_value_integer fields value field).containsKey k =
      if k = field then (value.isSome || fields.containsKey k)
      else fields.containsKey k := by
  cases value with
  | none => simp [add_value_integer]
  | some v => simp [add_value_integer]

@[simp] theorem containsKey_add_acceleration_vector (fields : SMap FieldValue)
    (acceleration : Option (ℤ × ℤ × ℤ)) (k : String) :
    (add_acceleration_vector fields acceleration).containsKey k =
      if k = "accelerationX" ∨ k = "accelerationY" ∨ k = "accelerationZ" then
        (acceleration.isSome || fields.containsKey k)
      else fields.containsKey k := by
  cases acceleration with
  | none =>
    simp only [add_acceleration_vector, Option.isSome_none, Bool.false_or]
    split <;> rfl
  | some a =>
    simp only [add_acceleration_vector, SMap.containsKey_insert,
      Option.isSome_some, Bool.true_or]
    by_cases hz : k = "accelerationZ" <;>
      by_cases hy : k = "accelerationY" <;>
        by_cases hx : k = "accelerationX" <;>
          simp [hx, hy, hz]

@[simp] theorem find?_add_acceleration_vector_ne (fields : SMap FieldValue)
    (acceleration : Option (ℤ × ℤ × ℤ)) (k : String)
    (hx : ¬ k = "accelerationX") (hy : ¬ k = "accelerationY")
    (hz : ¬ k = "accelerationZ") :
    (add_acceleration_vector fields acceleration).find? k = fields.find? k := by
  cases acceleration with
  | none => rfl
  | some a => simp [add_acceleration_vector, hx, hy, hz]

/-- Sensor readings with every quantity absent and both derived
computations returning nothing; concrete base value for examples. -/
def svEmpty : SensorValues :=
  { temperature_as_millicelsius := none
    humidity_as_ppm := none
    pressure_as_pascals := none
    battery_potential_as_millivolts := none
    tx_power_as_dbm := none
    movement_counter := none
    measurement_sequence_number := none
    pm25_as_10micrograms_per_cubicmeter := none
    co2_as_ppm := none
    get_dataformat := none
    get_air_density_kg_per_m3 := none
    saturation_vapor_pressure_as_hpa := none
    acceleration_vector_as_milli_g := none
    dew_point_as_celsius := fun _ => none
    absolute_humidity_as_grams_per_cubic_meter := fun _ => none }

/-- Concrete measurement whose readings carry format version 3. -/
def mFormat3 : Measurement :=
  { address := "AA:BB:CC:DD:EE:FF"
    tx_power := none
    rssi := none
    sensor_values := { svEmpty with get_dataformat := some 3 } }

/-- Concrete measurement whose readings carry format version 5. -/
def mFormat5 : Measurement :=
  { address := "AA:BB:CC:DD:EE:FF"
    tx_power := none
    rssi := none
    sensor_values := { svEmpty with get_dataformat := some 5 } }

/-- Concrete options whose format-version allowlist is exactly {3}. -/
def optsAllow3 : Options :=
  { influxdb_measurement := "ruuvi_measurements"
    alias_list := []
    verbose := false
    keep_mac_colons := false
    data_format_versions := [3] }

/-- Concrete options whose format-version allowlist is empty. -/
def optsAllowAll : Options :=
  { influxdb_measurement := "ruuvi_measurements"
    alias_list := []
    verbose := false
    keep_mac_colons := false
    data_format_versions := [] }

/-- C4: with allowlist {3}, a measurement of format version 3 is
dispatched (a DataPoint is built and submitted) and one of format
version 5 is discarded without dispatch; with an empty allowlist, both
are dispatched. -/
theorem C4_format_version_filtering (aliases : SMap String) (name : String)
    (now : ℕ) (opts3 optsE : Options) (m3 m5 : Measurement)
    (hv3 : opts3.data_format_versions = [3])
    (hvE : optsE.data_format_versions = [])
    (h3 : m3.sensor_values.get_dataformat = some 3)
    (h5 : m5.sensor_values.get_dataformat = some 5) :
    print_result_async aliases name m3 opts3 now =
        some (some (to_data_point aliases name m3 opts3 now)) ∧
      print_result_async aliases name m5 opts3 now = some none ∧
      print_result_async aliases name m3 optsE now =
        some (some (to_data_point aliases name m3 optsE now)) ∧
      print_result_async aliases name m5 optsE now =
        some (some (to_data_point aliases name m5 optsE now)) := by
  refine ⟨?_, ?_, ?_, ?_⟩ <;>
    simp [print_result_async, h3, h5, hv3, hvE]

/-- Witness for C4 at concrete measurements and option sets. -/
theorem C4_format_version_filtering_witness :
    print_result_async SMap.empty "ruuvi_measurements" mFormat3 optsAllow3 7 =
        some (some (to_data_point SMap.empty "ruuvi_measurements" mFormat3 optsAllow3 7)) ∧
      print_result_async SMap.empty "ruuvi_measurements" mFormat5 optsAllow3 7 = some none ∧
      print_result_async SMap.empty "ruuvi_measurements" mFormat3 optsAllowAll 7 =
        some (some (to_data_point SMap.empty "ruuvi_measurements" mFormat3 optsAllowAll 7)) ∧
      print_result_async SMap.empty "ruuvi_measurements" mFormat5 optsAllowAll 7 =
        some (some (to_data_point SMap.empty "ruuvi_measurements" mFormat5 optsAllowAll 7)) :=
  C4_format_version_filtering SMap.empty "ruuvi_measurements" 7
    optsAllow3 optsAllowAll mFormat3 mFormat5 rfl rfl rfl rfl

/-- C10: the dispatch filter unwraps the decoded format-version marker
before testing allowlist membership, for every allowlist including the
empty one, so its evaluation fails (the `None` branch is taken) exactly
when the marker is absent from the decoded readings. -/
theorem C10_unwrap_precondition (aliases : SMap String) (name : String)
    (measurement : Measurement) (options : Options) (now : ℕ) :
    print_result_async aliases name measurement options now = none ↔
      measurement.sensor_values.get_dataformat = none := by
  cases h : measurement.sensor_values.get_dataformat with
  | none => simp [print_result_async, h]
  | some version =>
    simp only [print_result_async, h]
    split <;> simp

/-- Concrete stand-in decoder for witnesses: succeeds on even-length
buffers, fails with a typed error otherwise. -/
def decodeEvenLength (data : List ℕ) : Except ParseError SensorValues :=
  if data.length % 2 = 0 then Except.ok svEmpty
  else Except.error (ParseError.InvalidValueLength data.length)

/-- Second concrete decoder, used to witness decoder-independence of the
short-buffer rejection. -/
def decodeAlwaysVersion9 (_data : List ℕ) : Except ParseError SensorValues :=
  Except.error (ParseError.UnsupportedFormatVersion 9)

/-- C5: buffers of length at most 2 are rejected with a parse error and
the outcome does not depend on the underlying decoder (it is never
invoked); buffers of length greater than 2 are delegated and the
decoder's result is returned unchanged. -/
theorem C5_gateway_min_length
    (decode decode2 : List ℕ → Except ParseError SensorValues)
    (data : List ℕ) :
    (data.length ≤ 2 →
        from_manufacturer_data decode data = Except.error ParseError.EmptyValue ∧
          from_manufacturer_data decode data = from_manufacturer_data decode2 data) ∧
      (data.length > 2 → from_manufacturer_data decode data = decode data) := by
  constructor
  · intro h
    have hn : ¬ data.length > 2 := by omega
    simp [from_manufacturer_data, hn]
  · intro h
    simp [from_manufacturer_data, h]

/-- Witness for C5: a 2-byte buffer is rejected identically under two
different decoders, and a 3-byte buffer is delegated unchanged. -/
theorem C5_gateway_min_length_witness :
    (from_manufacturer_data decodeEvenLength [1, 2] =
          Except.error ParseError.EmptyValue ∧
        from_manufacturer_data decodeEvenLength [1, 2] =
          from_manufacturer_data decodeAlwaysVersion9 [1, 2]) ∧
      from_manufacturer_data decodeEvenLength [1, 2, 3] =
        decodeEvenLength [1, 2, 3] :=
  ⟨(C5_gateway_min_length decodeEvenLength decodeAlwaysVersion9 [1, 2]).1 (by decide),
    (C5_gateway_min_length decodeEvenLength decodeAlwaysVersion9 [1, 2, 3]).2 (by decide)⟩

/-- C7: the alias resolution embedded in `tag_set` is total and pure:
the `name` tag is the alias table's entry for the normalized address
when one is configured, and the normalized address string itself
otherwise. -/
theorem C7_alias_resolver_total (aliases : SMap String)
    (measurement : Measurement) (options : Options) :
    (tag_set aliases measurement options).find? "name" =
      some ((aliases.find? (normalized_address options measurement.address)).getD
        (normalized_address options measurement.address)) := by
  simp [tag_set]

/-- C8: a decode failure delivered to the event loop is written to the
diagnostic stream exactly when verbose diagnostics are enabled, and the
loop's handling of the remaining events — both later diagnostics and
later dispatches — is unaffected; moreover every successfully decoded
measurement in the stream is dispatched, whatever failures surround it. -/
theorem C8_decode_failure_nonfatal (verbose : Bool) (e : ParseError)
    (rest events : List (Except ParseError Measurement)) :
    listen_loop verbose (Except.error e :: rest) =
        ((if verbose then [parse_error_message e] else []) ++
            (listen_loop verbose rest).1,
          (listen_loop verbose rest).2) ∧
      (listen_loop verbose events).2 = events.filterMap Except.toOption := by
  constructor
  · simp [listen_loop, handle_event]
  · induction events with
    | nil => rfl
    | cons r rest ih =>
      cases r with
      | ok m => simp [listen_loop, handle_event, ih, Except.toOption]
      | error err => simp [listen_loop, handle_event, ih, Except.toOption]

/-- C9: assembling the same measurement twice with the same aliases and
options yields identical tag sets and identical field sets; the two
DataPoints differ only in their timestamps, each of which is the clock
reading at its own construction. -/
theorem C9_assembly_deterministic (aliases : SMap String) (name : String)
    (measurement : Measurement) (options : Options) (t1 t2 : ℕ) :
    (to_data_point aliases name measurement options t1).tag_set =
        (to_data_point aliases name measurement options t2).tag_set ∧
      (to_data_point aliases name measurement options t1).field_set =
        (to_data_point aliases name measurement options t2).field_set ∧
      (to_data_point aliases name measurement options t1).measurement =
        (to_data_point aliases name measurement options t2).measurement ∧
      (to_data_point aliases name measurement options t1).timestamp = some t1 ∧
      (to_data_point aliases name measurement options t2).timestamp = some t2 :=
  ⟨rfl, rfl, rfl, rfl, rfl⟩

/-- Concrete measurement whose readings carry a saturation vapor
pressure of 1 hPa and nothing else. -/
def mVapor1 : Measurement :=
  { address := "AA:BB:CC:DD:EE:FF"
    tx_power := none
    rssi := none
    sensor_values := { svEmpty with saturation_vapor_pressure_as_hpa := some 1 } }

/-- Counterexample for C1: for the measurement whose saturation vapor
pressure reading is 1, the assembled `equilibriumVaporPressure` entry is
100 — the source quantity divided by 0.01 — and not 1/100 as the claim's
"divided by 100" would require. -/
theorem C1_equilibrium_scaling_cex :
    (field_set mVapor1).find? "equilibriumVaporPressure" =
        some (FieldValue.FloatValue 100) ∧
      FieldValue.FloatValue 100 ≠ FieldValue.FloatValue (1 / 100) := by
  refine ⟨?_, ?_⟩
  · simp +decide [field_set, mVapor1, svEmpty]
  · intro h
    have h100 : (100 : ℚ) = 1 / 100 := by
      injection h
    norm_num at h100

/-- C1 (amended): whenever the decoded readings contain the
saturation-vapor-pressure quantity, the assembled field set contains an
`equilibriumVaporPressure` entry whose value is the source quantity
divided by 0.01, that is, multiplied by 100 (hectopascals to pascals). -/
theorem C1_equilibrium_scaling (m : Measurement) (q : ℚ)
    (h : m.sensor_values.saturation_vapor_pressure_as_hpa = some q) :
    (field_set m).find? "equilibriumVaporPressure" =
      some (FieldValue.FloatValue (q / (1 / 100))) := by
  simp +decide [field_set, h]

/-- Witness for the amended C1 at the concrete 1 hPa measurement. -/
theorem C1_equilibrium_scaling_witness :
    (field_set mVapor1).find? "equilibriumVaporPressure" =
      some (FieldValue.FloatValue ((1 : ℚ) / (1 / 100))) :=
  C1_equilibrium_scaling mVapor1 1 rfl

/-- Concrete measurement whose readings carry a transmit power of -18
dBm (and nothing else); advertisement-layer transmit power absent. -/
def mTxSensor : Measurement :=
  { address := "AA:BB:CC:DD:EE:FF"
    tx_power := none
    rssi := none
    sensor_values := { svEmpty with tx_power_as_dbm := some (-18) } }

/-- Concrete measurement with no transmit power in the decoded readings
but an advertisement-layer transmit power of 4 dBm. -/
def mTxAdvert : Measurement :=
  { address := "AA:BB:CC:DD:EE:FF"
    tx_power := some 4
    rssi := none
    sensor_values := svEmpty }

/-- C6: the `txPower` field takes the decoded readings' transmit power
when present, otherwise falls back to the advertisement-layer transmit
power of the Measurement; when neither is present the field is omitted
and the absence diagnostic is emitted. -/
theorem C6_txpower_fallback (m : Measurement) :
    (∀ v, m.sensor_values.tx_power_as_dbm = some v →
        (field_set m).find? "txPower" = some (FieldValue.IntegerValue v)) ∧
      (m.sensor_values.tx_power_as_dbm = none → ∀ w, m.tx_power = some w →
        (field_set m).find? "txPower" = some (FieldValue.IntegerValue w)) ∧
      (m.sensor_values.tx_power_as_dbm = none → m.tx_power = none →
        (field_set m).find? "txPower" = none ∧ tx_power_diagnostic m = true) := by
  refine ⟨?_, ?_, ?_⟩
  · intro v hv
    simp +decide [field_set, hv]
  · intro hnone w hw
    simp +decide [field_set, hnone, hw]
  · intro hnone hadv
    constructor
    · simp +decide [field_set, hnone, hadv]
    · simp [tx_power_diagnostic, hnone, hadv]

/-- Witness for C6, one concrete measurement per branch: readings'
transmit power present, fallback to the advertisement layer, and both
absent (field omitted, diagnostic emitted). -/
theorem C6_txpower_fallback_witness :
    (field_set mTxSensor).find? "txPower" =
        some (FieldValue.IntegerValue (-18)) ∧
      (field_set mTxAdvert).find? "txPower" =
        some (FieldValue.IntegerValue 4) ∧
      ((field_set mFormat3).find? "txPower" = none ∧
        tx_power_diagnostic mFormat3 = true) :=
  ⟨(C6_txpower_fallback mTxSensor).1 (-18) rfl,
    (C6_txpower_fallback mTxAdvert).2.1 rfl 4 rfl,
    (C6_txpower_fallback mFormat3).2.2 rfl rfl⟩

/-- The alias pair produced by parsing `--alias AA:BB:CC:DD:EE:FF=Sauna`,
the exact shape of the option's own usage example (src/main.rs line 259). -/
def aliasSauna : Alias :=
  { address := "AA:BB:CC:DD:EE:FF", name := "Sauna" }

/-- Concrete options with the Sauna alias configured and colon-stripping
enabled (the default: `keep_mac_colons` unset). -/
def optsSauna : Options :=
  { influxdb_measurement := "ruuvi_measurements"
    alias_list := [aliasSauna]
    verbose := false
    keep_mac_colons := false
    data_format_versions := [] }

/-- Concrete measurement from the device AA:BB:CC:DD:EE:FF with no
decoded readings. -/
def mSauna : Measurement :=
  { address := "AA:BB:CC:DD:EE:FF"
    tx_power := none
    rssi := none
    sensor_values := svEmpty }

/-- C2: with the alias `AA:BB:CC:DD:EE:FF=Sauna` configured exactly as
the option's usage example writes it and colon-stripping enabled (the
default), the `name` tag is the stripped address "AABBCCDDEEFF", not
"Sauna": `tag_set` strips colons from the lookup key but `alias_map`
keeps the configured, colon-containing key, so the configured alias is
never found. -/
theorem C2_alias_lookup_bug :
    parse_alias "AA:BB:CC:DD:EE:FF=Sauna" = Except.ok aliasSauna ∧
      (tag_set (alias_map optsSauna.alias_list) mSauna optsSauna).find? "name" =
        some "AABBCCDDEEFF" ∧
      (tag_set (alias_map optsSauna.alias_list) mSauna optsSauna).find? "name" ≠
        some "Sauna" := by
  refine ⟨rfl, by decide, by decide⟩

/-- Auxiliary: mapping a total function across an optional value
preserves presence. -/
theorem isSome_bind_some {α β : Type} (o : Option α) (f : α → β) :
    (o.bind fun a => some (f a)).isSome = o.isSome := by
  cases o <;> rfl

/-- Counterexample for C3: for the measurement whose decoded readings
lack a transmit power but whose advertisement layer supplies one, the
`txPower` entry is present in the assembled field set even though the
source quantity is absent from the decoded readings — so txPower is a
third exception the claim does not allow. -/
theorem C3_presence_cex :
    ¬ ((field_set mTxAdvert).containsKey "txPower" =
        mTxAdvert.sensor_values.tx_power_as_dbm.isSome) := by
  decide

/-- C3 (amended): an entry of the field set sourced from the decoded
readings is present if and only if its source quantity is present, with
three exceptions: dewPoint is computed with the sentinel 999999999
(scaled by 1/10000) substituted for a missing humidity, absoluteHumidity
is computed with the sentinel 999999999 (scaled by 1/1000) substituted
for a missing temperature, and txPower falls back to the
advertisement-layer transmit power when it is absent from the decoded
readings. -/
theorem C3_optional_field_presence (m : Measurement) :
    (field_set m).containsKey "temperature" =
        m.sensor_values.temperature_as_millicelsius.isSome ∧
      (field_set m).containsKey "humidity" =
        m.sensor_values.humidity_as_ppm.isSome ∧
      (field_set m).containsKey "pressure" =
        m.sensor_values.pressure_as_pascals.isSome ∧
      (field_set m).containsKey "batteryVoltage" =
        m.sensor_values.battery_potential_as_millivolts.isSome ∧
      (field_set m).containsKey "movementCounter" =
        m.sensor_values.movement_counter.isSome ∧
      (field_set m).containsKey "measurementSequenceNumber" =
        m.sensor_values.measurement_sequence_number.isSome ∧
      (field_set m).containsKey "pm25" =
        m.sensor_values.pm25_as_10micrograms_per_cubicmeter.isSome ∧
      (field_set m).containsKey "co2" =
        m.sensor_values.co2_as_ppm.isSome ∧
      (field_set m).containsKey "dataFormat" =
        m.sensor_values.get_dataformat.isSome ∧
      (field_set m).containsKey "airDensity" =
        m.sensor_values.get_air_density_kg_per_m3.isSome ∧
      (field_set m).containsKey "equilibriumVaporPressure" =
        m.sensor_values.saturation_vapor_pressure_as_hpa.isSome ∧
      (field_set m).containsKey "accelerationX" =
        m.sensor_values.acceleration_vector_as_milli_g.isSome ∧
      (field_set m).containsKey "accelerationY" =
        m.sensor_values.acceleration_vector_as_milli_g.isSome ∧
      (field_set m).containsKey "accelerationZ" =
        m.sensor_values.acceleration_vector_as_milli_g.isSome ∧
      (field_set m).containsKey "dewPoint" =
        (m.sensor_values.dew_point_as_celsius
          (((m.sensor_values.humidity_as_ppm.getD 999999999 : ℕ) : ℚ) / 10000)).isSome ∧
      (field_set m).containsKey "absoluteHumidity" =
        (m.sensor_values.absolute_humidity_as_grams_per_cubic_meter
          (((m.sensor_values.temperature_as_millicelsius.getD 999999999 : ℤ) : ℚ) / 1000)).isSome ∧
      (field_set m).containsKey "txPower" =
        (m.sensor_values.tx_power_as_dbm.isSome || m.tx_power.isSome) := by
  refine ⟨?_, ?_, ?_, ?_, ?_, ?_, ?_, ?_, ?_, ?_, ?_, ?_, ?_, ?_, ?_, ?_, ?_⟩ <;>
    first
      | (simp +decide [field_set, isSome_bind_some]; done)
      | (cases htx : m.sensor_values.tx_power_as_dbm <;>
          simp +decide [field_set, isSome_bind_some, htx])
